import Mathlib

/-!
Verification of the Fabric wheel-deployment orchestrator
(`devops_pipelines/deploy_wheels_file_to_fabric.py`).

The Python module is embedded shallowly:

* JSON values decoded by `response.json()` are modelled by the inductive
  type `Json`; Python subscripting, `in`-membership and iteration over
  such values are modelled by `getItem`, `pyContains` and `pyIter`, each
  returning `Except PyError _` so that the Python `KeyError` and
  `TypeError` behaviour on non-dict values is preserved.
* Exceptions raised by the module are collected in `PyError`; the raw
  `Exception` raised by `_fabric_api_request` is modelled by its message
  string, the `Exception` raised on a malformed 200 body by
  `PyError.malformedResponse`, the one raised on a failed publish by
  `PyError.publishFailed`, and the Python built-in errors by
  `PyError.keyError` / `PyError.typeError` / `PyError.attributeError` /
  `PyError.fileNotFound` / `PyError.timeoutError`.
* The remote API is an oracle: the transport layer takes the sequence of
  HTTP responses as a function from attempt number to response, and the
  lifecycle layer takes the sequence of environment states as a function
  from poll index to state.  Wall-clock time advances by `lat` units per
  state poll and by 30 units per poll sleep, matching the
  `time.time()` bookkeeping of the module against a start reference
  captured once.
* The filesystem is the list of paths that exist; `Path(p).open`
  succeeds exactly when `p` is in that list.
-/

/-- A decoded JSON value, as returned by `requests.Response.json()`. -/
inductive Json where
  | null
  | bool (b : Bool)
  | num (n : Int)
  | str (s : String)
  | arr (elems : List Json)
  | obj (fields : List (String × Json))

mutual

/-- Structural equality of JSON values, mirroring Python `==` on decoded
JSON (which compares dicts, lists and scalars by value). -/
def Json.beq : Json → Json → Bool
  | .null, .null => true
  | .bool a, .bool b => a == b
  | .num a, .num b => a == b
  | .str a, .str b => a == b
  | .arr xs, .arr ys => Json.beqList xs ys
  | .obj fs, .obj gs => Json.beqFields fs gs
  | _, _ => false

/-- Elementwise `Json.beq` on lists. -/
def Json.beqList : List Json → List Json → Bool
  | [], [] => true
  | x :: xs, y :: ys => Json.beq x y && Json.beqList xs ys
  | _, _ => false

/-- Elementwise `Json.beq` on key-value field lists. -/
def Json.beqFields : List (String × Json) → List (String × Json) → Bool
  | [], [] => true
  | (k, v) :: xs, (l, w) :: ys => k == l && Json.beq v w && Json.beqFields xs ys
  | _, _ => false

end

instance : BEq Json := ⟨Json.beq⟩

/-- The exceptions the Python module can raise, by provenance. -/
inductive PyError where
  | keyError (key : String)
  | typeError
  | attributeError
  | fileNotFound (path : String)
  | apiError (msg : String)
  | malformedResponse (body : Json)
  | publishFailed (msg : String)
  | timeoutError (msg : String)

/-- First binding of a key in a decoded JSON object (Python dict keys are
unique, so first-match lookup agrees with dict lookup). -/
def objLookup : List (String × Json) → String → Option Json
  | [], _ => none
  | (k, v) :: rest, key => if k = key then some v else objLookup rest key

/-- Python subscripting `j[key]` with a string key: dict lookup raising
`KeyError` when the key is absent, `TypeError` on any non-dict value. -/
def getItem (j : Json) (key : String) : Except PyError Json :=
  match j with
  | .obj fields =>
    match objLookup fields key with
    | some v => .ok v
    | none => .error (.keyError key)
  | _ => .error .typeError

/-- Python membership `key in j`: key lookup for dicts, substring test for
strings, element equality for lists, `TypeError` otherwise. -/
def pyContains (j : Json) (key : String) : Except PyError Bool :=
  match j with
  | .obj fields => .ok (objLookup fields key).isSome
  | .str s => .ok (decide (key.toList <:+: s.toList))
  | .arr elems => .ok (elems.contains (.str key))
  | _ => .error .typeError

/-- Python iteration `for x in j`: elements of a list, characters of a
string, keys of a dict, `TypeError` otherwise. -/
def pyIter : Json → Except PyError (List Json)
  | .arr elems => .ok elems
  | .str s => .ok (s.toList.map (fun c => .str (String.singleton c)))
  | .obj fields => .ok (fields.map (fun p => .str p.1))
  | _ => .error .typeError

/-- Whether a JSON value is an object (a Python dict). -/
def Json.isObj : Json → Bool
  | .obj _ => true
  | _ => false

/-- The bytes `urllib.parse.quote` never encodes: ASCII letters, digits,
and underscore, dot, hyphen, tilde. -/
def isAlwaysSafeByte (b : Nat) : Bool :=
  (65 ≤ b && b ≤ 90) || (97 ≤ b && b ≤ 122) || (48 ≤ b && b ≤ 57) ||
    b == 95 || b == 46 || b == 45 || b == 126

/-- Uppercase hexadecimal digit for a value below 16. -/
def hexDigitUpper (n : Nat) : Char :=
  if n < 10 then Char.ofNat (48 + n) else Char.ofNat (55 + n)

/-- Percent-encoding of one byte, uppercase, as `urllib.parse.quote` emits. -/
def percentEncodeByte (b : Nat) : List Char :=
  [Char.ofNat 37, hexDigitUpper (b / 16), hexDigitUpper (b % 16)]

/-- UTF-8 encoding of one code point (Python encodes str input to UTF-8
bytes before quoting). -/
def utf8Bytes (c : Char) : List Nat :=
  if c.toNat < 128 then [c.toNat]
  else if c.toNat < 2048 then [192 + c.toNat / 64, 128 + c.toNat % 64]
  else if c.toNat < 65536 then
    [224 + c.toNat / 4096, 128 + (c.toNat / 64) % 64, 128 + c.toNat % 64]
  else
    [240 + c.toNat / 262144, 128 + (c.toNat / 4096) % 64,
      128 + (c.toNat / 64) % 64, 128 + c.toNat % 64]

/-- Quote a byte sequence keeping the always-safe bytes and the extra safe
bytes verbatim and percent-encoding everything else. -/
def quoteBytes (safeExtra : List Nat) (bs : List Nat) : List Char :=
  bs.flatMap (fun b =>
    if isAlwaysSafeByte b || safeExtra.contains b then [Char.ofNat b]
    else percentEncodeByte b)

/-- Model of `urllib.parse.quote(s)` with its default arguments: UTF-8
encode, then percent-encode every byte outside the always-safe set and the
default safe set, which is the single byte 47, the slash. -/
def urllib_quote (s : String) : String :=
  String.mk (quoteBytes [47] (s.toList.flatMap utf8Bytes))

example : urllib_quote "my lib/v1" = "my%20lib/v1" := by decide
example : urllib_quote "a_b.whl" = "a_b.whl" := by decide

/-- One HTTP response delivered by the remote API: status code, raw text
body, and the value `response.json()` decodes to. -/
structure HttpResponse where
  statusCode : Nat
  text : String
  body : Json

/-- Observable outcome of one `_fabric_api_request` run: the returned or
raised value, the number of HTTP requests issued, and the number of
3-second sleeps performed between attempts. -/
structure ApiOutcome where
  result : Except String (Option Json)
  requests : Nat
  sleeps : Nat

/-- Model of `s.lstrip(c)` for the single character slash, as used on the
request path. -/
def lstripSlash (s : String) : String :=
  String.mk (s.toList.dropWhile (fun c => c == Char.ofNat 47))

/-- The full endpoint URL `_fabric_api_request` builds before its retry
loop: the fixed API base joined with the path stripped of leading
slashes. -/
def fullUrl (request_url : String) : String :=
  "https://api.fabric.microsoft.com/" ++ lstripSlash request_url

/-- The message of the `Exception` raised when the retry loop exhausts its
attempts, interpolating the attempt count, the last status code, the last
response text, and the full URL. -/
def apiFailMsg (maxRetries statusCode : Nat) (text url : String) : String :=
  "Fabric API request failed after " ++ toString maxRetries ++
    " attempts with status code " ++ toString statusCode ++ ": " ++ text ++
    ". URL: " ++ url

/-- The retry loop of `_fabric_api_request`, from a given attempt number
with the given number of loop iterations remaining (the caller passes
`remaining = maxRetries` at `attempt = 1`, so the loop runs for attempts
1 through `maxRetries` exactly as `range(1, max_retries + 1)` does).
Status 200 returns the decoded body at once; otherwise the loop sleeps
and retries while `attempt < maxRetries` and raises the `ApiError`
message on the last attempt.  Falling out of the loop hits the trailing
`return None`. -/
def apiAttempts (responses : Nat → HttpResponse) (url : String)
    (maxRetries : Nat) : Nat → Nat → ApiOutcome
  | _, 0 => ⟨.ok none, 0, 0⟩
  | attempt, remaining + 1 =>
    let r := responses attempt
    if r.statusCode = 200 then ⟨.ok (some r.body), 1, 0⟩
    else if attempt < maxRetries then
      let rest := apiAttempts responses url maxRetries (attempt + 1) remaining
      ⟨rest.result, rest.requests + 1, rest.sleeps + 1⟩
    else ⟨.error (apiFailMsg maxRetries r.statusCode r.text url), 1, 0⟩

/-- Model of `_fabric_api_request`: the oracle `responses` gives the HTTP
response the remote returns to the attempt numbered 1, 2, .... -/
def _fabric_api_request (responses : Nat → HttpResponse)
    (request_url : String) (maxRetries : Nat) : ApiOutcome :=
  apiAttempts responses (fullUrl request_url) maxRetries 1 maxRetries

/-- Boolean substring test used to state that an error message carries a
given piece of diagnostic text. -/
def containsSubstr (hay needle : String) : Bool :=
  decide (needle.toList <:+: hay.toList)

/-- Model of `_delete_fabric_environment_custom_library`: the request URL
path the function passes to the transport layer, with the library name
quoted by `urllib.parse.quote`. -/
def _delete_fabric_environment_custom_library
    (workspace_id environment_id library_name : String) : String :=
  "workspaces/" ++ workspace_id ++ "/environments/" ++ environment_id ++
    "/staging/libraries?libraryToDelete=" ++ urllib_quote library_name

/-- Model of `Path(p).name`: the last nonempty slash-separated component
of the path (trailing slashes ignored, as `pathlib` does). -/
def pathName (p : String) : String :=
  String.mk (((p.toList.reverse.dropWhile (fun c => c == Char.ofNat 47)).takeWhile
    (fun c => c != Char.ofNat 47)).reverse)

/-- The multipart file field `_upload_fabric_environment_custom_library`
builds: the dict entry mapping the field name `file` to the tuple of the
base name of the path, the open handle, and the content type
`application/octet-stream`. -/
structure MultipartFile where
  fieldName : String
  fileName : String
  contentType : String

/-- One remote call issued by the orchestrator, in issue order. -/
inductive FabricCall where
  | getState
  | cancelPublish
  | listLibraries
  | deleteLibrary (url : String)
  | uploadLibrary (file : MultipartFile)
  | publish

/-- Python `response.json()` evaluated on a value the transport layer
already decoded: no decoded JSON value (dict, list, scalar) has a `.json`
attribute, so the attribute access raises `AttributeError`. -/
def jsonAttrOfDecoded (_ : Json) : Except PyError Json :=
  .error .attributeError

/-- Model of `_upload_fabric_environment_custom_library` over a
filesystem given as the list of existing paths.  `Path(file_path).open`
raises `FileNotFoundError` when the path does not exist, before the
request; otherwise the multipart POST is issued (the oracle answers it
with status 200 and body `responseBody`) and the function evaluates
`response.json()` on the already-decoded body.  The second component is
the list of requests issued. -/
def _upload_fabric_environment_custom_library (fs : List String)
    (workspace_id environment_id file_path : String) (responseBody : Json) :
    Except PyError Json × List FabricCall :=
  if file_path ∈ fs then
    (jsonAttrOfDecoded responseBody,
      [.uploadLibrary ⟨"file", pathName file_path, "application/octet-stream"⟩])
  else (.error (.fileNotFound file_path), [])

/-- The body of the delete loop in
`_delete_fabric_environment_published_custom_libraries`, over the items
iteration yields: each item is passed to `urllib.parse.quote`, which
raises `TypeError` on a non-string, then deleted.  Returns the final
result and the delete URLs issued, in order, keeping the calls already
issued when a later item raises. -/
def deleteLoop (workspace_id environment_id : String) :
    List Json → Except PyError Unit × List String
  | [] => (.ok (), [])
  | item :: rest =>
    match item with
    | .str name =>
      let r := deleteLoop workspace_id environment_id rest
      (r.1, _delete_fabric_environment_custom_library workspace_id environment_id name :: r.2)
    | _ => (.error .typeError, [])

/-- Model of `_delete_fabric_environment_published_custom_libraries` on
the decoded listing body (the listing GET itself answered with status
200): evaluates `"customLibraries" in libraries and "wheelFiles" in
libraries["customLibraries"]` with Python semantics and, when true,
iterates `libraries["customLibraries"]["wheelFiles"]` deleting each
entry.  Returns the result and the delete URLs issued in order. -/
def _delete_fabric_environment_published_custom_libraries
    (workspace_id environment_id : String) (listing : Json) :
    Except PyError Unit × List String :=
  match pyContains listing "customLibraries" with
  | .error e => (.error e, [])
  | .ok false => (.ok (), [])
  | .ok true =>
    match getItem listing "customLibraries" with
    | .error e => (.error e, [])
    | .ok cl =>
      match pyContains cl "wheelFiles" with
      | .error e => (.error e, [])
      | .ok false => (.ok (), [])
      | .ok true =>
        match getItem cl "wheelFiles" with
        | .error e => (.error e, [])
        | .ok wf =>
          match pyIter wf with
          | .error e => (.error e, [])
          | .ok items => deleteLoop workspace_id environment_id items

/-- Model of `_get_fabric_environment_state` on a decoded 200 body: reads
`environment_details["properties"]["publishDetails"]["state"]` under a
`try` that catches exactly `KeyError` and re-raises it as the
`Incorrect API response` exception (the `MalformedResponseError` of the
specification);
any other exception from the subscripting, such as `TypeError` on a
non-dict intermediate, escapes unchanged.  `getStateChain` is the bare
subscript chain, `_get_fabric_environment_state` wraps it in the
`try`/`except KeyError` of the source. -/
def getStateChain (body : Json) : Except PyError Json :=
  match getItem body "properties" with
  | .error e => .error e
  | .ok p =>
    match getItem p "publishDetails" with
    | .error e => .error e
    | .ok d => getItem d "state"

def _get_fabric_environment_state (body : Json) : Except PyError Json :=
  match getStateChain body with
  | .ok v => .ok v
  | .error (.keyError _) => .error (.malformedResponse body)
  | .error e => .error e

/-- Model of `_is_fabric_environment_published`, parametrised by the
state string the state read returned: `Success` is published, `Failed`,
or `Cancelled` without `allow_cancelled`, raises the publish-failure
exception, and anything else is not yet published. -/
def _is_fabric_environment_published (environment_id state : String)
    (allow_cancelled : Bool) : Except PyError Bool :=
  if state = "Success" then .ok true
  else if state = "Failed" ∨ (allow_cancelled = false ∧ state = "Cancelled") then
    .error (.publishFailed ("Environment " ++ environment_id ++
      " failed to publish with state: " ++ state))
  else .ok false

/-- The message of the `TimeoutError` raised by the polling loop. -/
def waitTimeoutMsg (environment_id : String) : String :=
  "Timeout reached while waiting for environment " ++ environment_id ++
    " to be published"

/-- Observable outcome of one polling-loop run: the returned or raised
value, the number of state polls issued, and the number of 30-second poll
sleeps performed. -/
structure WaitOutcome where
  result : Except PyError Bool
  polls : Nat
  sleeps : Nat

/-- The polling loop of `_wait_until_fabric_environment_publish_finished`
from poll index `i` on, with explicit fuel (`none` meaning the fuel ran
out before the loop did).  The oracle `states` gives the state the
`i`-th poll observes; a poll takes `lat` time units and each sleep takes
30, so on entering the timeout test after poll `i` the elapsed time
against the start reference captured at entry is
`(i + 1) * lat + i * 30`.  The test uses the strict comparison
`time.time() - start_time > timeout_in_minutes * 60` of the source. -/
def waitFrom (environment_id : String) (states : Nat → String)
    (allow_cancelled : Bool) (timeoutSecs lat : Nat) :
    Nat → Nat → Option WaitOutcome
  | _, 0 => none
  | i, fuel + 1 =>
    match _is_fabric_environment_published environment_id (states i) allow_cancelled with
    | .error e => some ⟨.error e, i + 1, i⟩
    | .ok true => some ⟨.ok true, i + 1, i⟩
    | .ok false =>
      if (i + 1) * lat + i * 30 > timeoutSecs then
        some ⟨.error (.timeoutError (waitTimeoutMsg environment_id)), i + 1, i⟩
      else waitFrom environment_id states allow_cancelled timeoutSecs lat (i + 1) fuel

/-- Model of `_wait_until_fabric_environment_publish_finished`: capture
the start reference once, then poll from index 0. -/
def _wait_until_fabric_environment_publish_finished (environment_id : String)
    (states : Nat → String) (allow_cancelled : Bool)
    (timeout_in_minutes lat fuel : Nat) : Option WaitOutcome :=
  waitFrom environment_id states allow_cancelled (timeout_in_minutes * 60) lat 0 fuel

/-- The remote environment as the deployment run observes it, every call
answered with HTTP status 200: the state the initial read returns, the
state sequences the two polling waits observe, the decoded listing body,
and the decoded body of the upload response. -/
structure RemoteEnv where
  initialState : String
  afterCancel : Nat → String
  afterPublish : Nat → String
  listing : Json
  uploadResponse : Json

/-- Observable outcome of one `run_wheel_deployment_to_fabric` run: the
returned or raised value and the remote calls issued, in order. -/
structure DeployOutcome where
  result : Except PyError Unit
  calls : List FabricCall

/-- The tail of `run_wheel_deployment_to_fabric` after the optional
cancel-and-wait: delete the published custom libraries, upload the new
file, publish, and wait for the publish to finish with
`allow_cancelled` left at its `False` default and the 40-minute default
timeout. -/
def deployRest (workspace_id environment_id : String) (remote : RemoteEnv)
    (fs : List String) (file_path : String) (lat fuel : Nat)
    (calls : List FabricCall) : Option DeployOutcome :=
  match _delete_fabric_environment_published_custom_libraries
      workspace_id environment_id remote.listing with
  | (res, urls) =>
    let calls := calls ++ [.listLibraries] ++ urls.map .deleteLibrary
    match res with
    | .error e => some ⟨.error e, calls⟩
    | .ok _ =>
      match _upload_fabric_environment_custom_library fs workspace_id
          environment_id file_path remote.uploadResponse with
      | (upRes, upCalls) =>
        let calls := calls ++ upCalls
        match upRes with
        | .error e => some ⟨.error e, calls⟩
        | .ok _ =>
          let calls := calls ++ [.publish]
          match _wait_until_fabric_environment_publish_finished environment_id
              remote.afterPublish false 40 lat fuel with
          | none => none
          | some w =>
            let calls := calls ++ List.replicate w.polls .getState
            match w.result with
            | .error e => some ⟨.error e, calls⟩
            | .ok _ => some ⟨.ok (), calls⟩

/-- Model of `run_wheel_deployment_to_fabric`: read the current state;
when it is not `Success`, cancel the earlier publish and wait with
`allow_cancelled=True` and the 40-minute default timeout; then proceed
with delete-all, upload, publish and the final wait.  Any exception from
a step is logged and re-raised unchanged, so it propagates to the
result. -/
def run_wheel_deployment_to_fabric (workspace_id environment_id : String)
    (remote : RemoteEnv) (fs : List String) (file_path : String)
    (lat fuel : Nat) : Option DeployOutcome :=
  if remote.initialState ≠ "Success" then
    match _wait_until_fabric_environment_publish_finished environment_id
        remote.afterCancel true 40 lat fuel with
    | none => none
    | some w =>
      let calls := FabricCall.getState :: FabricCall.cancelPublish ::
        List.replicate w.polls .getState
      match w.result with
      | .error e => some ⟨.error e, calls⟩
      | .ok _ =>
        deployRest workspace_id environment_id remote fs file_path lat fuel calls
  else
    deployRest workspace_id environment_id remote fs file_path lat fuel
      [FabricCall.getState]

lemma char_toNat_lt_valid (c : Char) : c.toNat < 1114112 := by
  have h := c.valid
  unfold UInt32.isValidChar Nat.isValidChar at h
  rcases h with h | ⟨h1, h2⟩ <;> unfold Char.toNat <;> omega

lemma toNat_ofNat_byte (b : Nat) (h : b < 256) : (Char.ofNat b).toNat = b := by
  unfold Char.ofNat Char.toNat
  rw [dif_pos]
  · rfl
  · exact Or.inl (by omega)

lemma utf8Bytes_lt (c : Char) : ∀ b ∈ utf8Bytes c, b < 256 := by
  have hc := char_toNat_lt_valid c
  intro b hb
  unfold utf8Bytes at hb
  split_ifs at hb <;> simp at hb <;> omega

/-- A character the quoted output may contain: an always-safe byte, the
slash kept by the default safe set, or the percent sign introducing a
hex escape. -/
def urlOutByteOk (b : Nat) : Bool :=
  isAlwaysSafeByte b || b == 47 || b == 37

lemma hexDigitUpper_ok (n : Nat) (h : n < 16) :
    urlOutByteOk (hexDigitUpper n).toNat = true := by
  unfold hexDigitUpper
  split_ifs with h1 <;>
    rw [toNat_ofNat_byte _ (by omega)] <;>
    simp [urlOutByteOk, isAlwaysSafeByte] <;> omega

lemma quoteBytes_safe (bs : List Nat) (h : ∀ b ∈ bs, b < 256) :
    ∀ c ∈ quoteBytes [47] bs, urlOutByteOk c.toNat = true := by
  intro c hc
  unfold quoteBytes at hc
  rw [List.mem_flatMap] at hc
  obtain ⟨b, hb, hcb⟩ := hc
  have hb256 := h b hb
  split_ifs at hcb with hsafe
  · have hcb2 : c = Char.ofNat b := by simpa using hcb
    subst hcb2
    rw [toNat_ofNat_byte b hb256]
    simp [urlOutByteOk, isAlwaysSafeByte] at hsafe ⊢
    omega
  · unfold percentEncodeByte at hcb
    simp at hcb
    rcases hcb with hcb | hcb | hcb
    · subst hcb
      rw [toNat_ofNat_byte 37 (by omega)]
      simp [urlOutByteOk]
    · subst hcb
      exact hexDigitUpper_ok _ (by omega)
    · subst hcb
      exact hexDigitUpper_ok _ (by omega)

/-- C1: the single state check maps `Success` to true, `Failed` and
unallowed `Cancelled` to the publish-failure exception, and everything
else to false.  At the failing input of the claim, state `Cancelled`
with `allowCancelled = true`, the check returns false (keep polling)
rather than the terminal-success true the specification requires, so the
cancel-and-wait recovery path can never see the wait succeed. -/
theorem c1_cancelled_allowed_returns_false :
    _is_fabric_environment_published "env1" "Cancelled" true = .ok false := by
  rfl

/-- C3 counterexample: the delete URL for the library name `my lib/v1`
percent-encodes the space but leaves the slash unencoded, because
`urllib.parse.quote` keeps `/` safe by default; the URL the claim
predicts, with `%2F`, is not the URL the code builds. -/
theorem c3_slash_not_encoded :
    _delete_fabric_environment_custom_library "w1" "e1" "my lib/v1" =
      "workspaces/w1/environments/e1/staging/libraries?libraryToDelete=my%20lib/v1" ∧
    _delete_fabric_environment_custom_library "w1" "e1" "my lib/v1" ≠
      "workspaces/w1/environments/e1/staging/libraries?libraryToDelete=my%20lib%2Fv1" := by
  constructor
  · decide
  · decide

/-- C3 amended: for every library name the delete URL is the staging
query string carrying `urllib.parse.quote` of the name, and every
character of the quoted name is an always-safe byte, a slash, or part of
a percent escape — so every URL-unsafe character except the slash
(which the default safe set keeps verbatim) is percent-encoded. -/
theorem c3_delete_url_percent_encodes_except_slash
    (workspace_id environment_id name : String) :
    _delete_fabric_environment_custom_library workspace_id environment_id name =
      "workspaces/" ++ workspace_id ++ "/environments/" ++ environment_id ++
        "/staging/libraries?libraryToDelete=" ++ urllib_quote name ∧
    (urllib_quote name).toList.all (fun c => urlOutByteOk c.toNat) = true := by
  constructor
  · rfl
  · rw [List.all_eq_true]
    intro c hc
    have hl : (urllib_quote name).toList =
        quoteBytes [47] (name.toList.flatMap utf8Bytes) := rfl
    rw [hl] at hc
    refine quoteBytes_safe _ ?_ c hc
    intro b hb
    rw [List.mem_flatMap] at hb
    obtain ⟨ch, _, hbc⟩ := hb
    exact utf8Bytes_lt ch b hbc

/-- Witness for the quoting theorem at a name holding a space. -/
theorem c3_delete_url_percent_encodes_except_slash_witness :
    _delete_fabric_environment_custom_library "w1" "e1" "my lib" =
      "workspaces/" ++ "w1" ++ "/environments/" ++ "e1" ++
        "/staging/libraries?libraryToDelete=" ++ urllib_quote "my lib" ∧
    (urllib_quote "my lib").toList.all (fun c => urlOutByteOk c.toNat) = true :=
  c3_delete_url_percent_encodes_except_slash "w1" "e1" "my lib"

lemma containsSubstr_of_eq (s a t b : String) (h : s = a ++ t ++ b) :
    containsSubstr s t = true := by
  subst h
  unfold containsSubstr
  rw [decide_eq_true_eq]
  have hl : (a ++ t ++ b).toList = a.toList ++ t.toList ++ b.toList := by
    simp
  rw [hl]
  exact List.infix_append _ _ _

lemma apiAttempts_allFail (responses : Nat → HttpResponse) (url : String)
    (maxRetries : Nat) :
    ∀ remaining attempt, attempt + remaining = maxRetries + 1 → 1 ≤ remaining →
    (∀ a, attempt ≤ a → a ≤ maxRetries → (responses a).statusCode ≠ 200) →
    apiAttempts responses url maxRetries attempt remaining =
      ⟨.error (apiFailMsg maxRetries (responses maxRetries).statusCode
        (responses maxRetries).text url), remaining, remaining - 1⟩ := by
  intro remaining
  induction remaining with
  | zero => intro attempt _ h2 _; omega
  | succ k ih =>
    intro attempt hinv _ hfail
    have hne : ¬((responses attempt).statusCode = 200) :=
      hfail attempt (Nat.le_refl _) (by omega)
    simp only [apiAttempts]
    rw [if_neg hne]
    by_cases hlt : attempt < maxRetries
    · rw [if_pos hlt]
      have hk : 1 ≤ k := by omega
      rw [ih (attempt + 1) (by omega) hk
        (fun a ha hb => hfail a (by omega) hb)]
      dsimp only
      have hs : k - 1 + 1 = k := by omega
      rw [hs]
      simp only [Nat.add_sub_cancel]
    · rw [if_neg hlt]
      have ha : attempt = maxRetries := by omega
      have hk : k = 0 := by omega
      subst ha
      subst hk
      rfl

lemma apiAttempts_firstSuccess (responses : Nat → HttpResponse) (url : String)
    (maxRetries : Nat) :
    ∀ remaining attempt k, attempt + remaining = maxRetries + 1 →
    attempt ≤ k → k ≤ maxRetries →
    (responses k).statusCode = 200 →
    (∀ a, attempt ≤ a → a < k → (responses a).statusCode ≠ 200) →
    apiAttempts responses url maxRetries attempt remaining =
      ⟨.ok (some (responses k).body), k + 1 - attempt, k - attempt⟩ := by
  intro remaining
  induction remaining with
  | zero => intro attempt k h1 h2 h3 _ _; omega
  | succ m ih =>
    intro attempt k hinv hak hkm h200 hbefore
    simp only [apiAttempts]
    by_cases heq : attempt = k
    · subst heq
      rw [if_pos h200]
      have e1 : attempt + 1 - attempt = 1 := by omega
      have e2 : attempt - attempt = 0 := by omega
      rw [e1, e2]
    · have hne : ¬((responses attempt).statusCode = 200) :=
        hbefore attempt (Nat.le_refl _) (by omega)
      rw [if_neg hne, if_pos (show attempt < maxRetries by omega)]
      rw [ih (attempt + 1) k (by omega) (by omega) hkm h200
        (fun a ha hb => hbefore a (by omega) hb)]
      dsimp only
      have e1 : k + 1 - (attempt + 1) + 1 = k + 1 - attempt := by omega
      have e2 : k - (attempt + 1) + 1 = k - attempt := by omega
      rw [e1, e2]

lemma apiAttempts_ne_okNone (responses : Nat → HttpResponse) (url : String)
    (maxRetries : Nat) :
    ∀ remaining attempt, attempt + remaining = maxRetries + 1 → 1 ≤ remaining →
    (apiAttempts responses url maxRetries attempt remaining).result ≠ .ok none := by
  intro remaining
  induction remaining with
  | zero => intro attempt _ h2; omega
  | succ k ih =>
    intro attempt hinv _
    simp only [apiAttempts]
    by_cases h200 : (responses attempt).statusCode = 200
    · rw [if_pos h200]
      intro h
      simp at h
    · rw [if_neg h200]
      by_cases hlt : attempt < maxRetries
      · rw [if_pos hlt]
        exact ih (attempt + 1) (by omega) (by omega)
      · rw [if_neg hlt]
        intro h
        simp at h

/-- C4: when every one of the `maxRetries` attempts answers with a
non-200 status, the transport layer issues exactly `maxRetries` requests
with exactly `maxRetries - 1` of the 3-second sleeps between them, and
raises the `ApiError` exception whose message carries the last status
code, the last response body, and the full request URL. -/
theorem c4_exhausted_retries_raise_api_error (responses : Nat → HttpResponse)
    (request_url : String) (maxRetries : Nat) (hpos : 1 ≤ maxRetries)
    (hfail : ∀ a, 1 ≤ a → a ≤ maxRetries → (responses a).statusCode ≠ 200) :
    _fabric_api_request responses request_url maxRetries =
      ⟨.error (apiFailMsg maxRetries (responses maxRetries).statusCode
        (responses maxRetries).text (fullUrl request_url)),
        maxRetries, maxRetries - 1⟩ ∧
    containsSubstr
      (apiFailMsg maxRetries (responses maxRetries).statusCode
        (responses maxRetries).text (fullUrl request_url))
      (toString (responses maxRetries).statusCode) = true ∧
    containsSubstr
      (apiFailMsg maxRetries (responses maxRetries).statusCode
        (responses maxRetries).text (fullUrl request_url))
      ((responses maxRetries).text) = true ∧
    containsSubstr
      (apiFailMsg maxRetries (responses maxRetries).statusCode
        (responses maxRetries).text (fullUrl request_url))
      (fullUrl request_url) = true := by
  refine ⟨?_, ?_, ?_, ?_⟩
  · exact apiAttempts_allFail responses (fullUrl request_url) maxRetries
      maxRetries 1 (by omega) hpos hfail
  · refine containsSubstr_of_eq _
      ("Fabric API request failed after " ++ toString maxRetries ++
        " attempts with status code ") _
      (": " ++ (responses maxRetries).text ++ ". URL: " ++ fullUrl request_url) ?_
    simp [apiFailMsg, String.append_assoc]
  · refine containsSubstr_of_eq _
      ("Fabric API request failed after " ++ toString maxRetries ++
        " attempts with status code " ++
        toString (responses maxRetries).statusCode ++ ": ") _
      (". URL: " ++ fullUrl request_url) ?_
    simp [apiFailMsg, String.append_assoc]
  · refine containsSubstr_of_eq _
      ("Fabric API request failed after " ++ toString maxRetries ++
        " attempts with status code " ++
        toString (responses maxRetries).statusCode ++ ": " ++
        (responses maxRetries).text ++ ". URL: ") _ "" ?_
    simp [apiFailMsg, String.append_assoc]

/-- Witness for the exhausted-retries theorem: three attempts of a
constant 500 response. -/
theorem c4_exhausted_retries_raise_api_error_witness :
    1 ≤ 3 ∧
    (_fabric_api_request (fun _ => ⟨500, "server error", Json.null⟩)
        "workspaces/x" 3 =
      ⟨.error (apiFailMsg 3 500 "server error" (fullUrl "workspaces/x")), 3, 2⟩ ∧
    containsSubstr (apiFailMsg 3 500 "server error" (fullUrl "workspaces/x"))
      (toString 500) = true ∧
    containsSubstr (apiFailMsg 3 500 "server error" (fullUrl "workspaces/x"))
      "server error" = true ∧
    containsSubstr (apiFailMsg 3 500 "server error" (fullUrl "workspaces/x"))
      (fullUrl "workspaces/x") = true) :=
  ⟨by decide,
    c4_exhausted_retries_raise_api_error (fun _ => ⟨500, "server error", Json.null⟩)
      "workspaces/x" 3 (by decide)
      (fun _ _ _ => by show (500 : Nat) ≠ 200; decide)⟩

/-- C5: when attempt `k` is the first to answer 200, the transport layer
issues exactly `k` requests and `k - 1` sleeps — nothing after attempt
`k` — and returns the decoded body of that 200 response. -/
theorem c5_first_success_stops_retrying (responses : Nat → HttpResponse)
    (request_url : String) (maxRetries k : Nat) (h1 : 1 ≤ k)
    (h2 : k ≤ maxRetries) (h200 : (responses k).statusCode = 200)
    (hbefore : ∀ a, 1 ≤ a → a < k → (responses a).statusCode ≠ 200) :
    _fabric_api_request responses request_url maxRetries =
      ⟨.ok (some (responses k).body), k, k - 1⟩ := by
  have h := apiAttempts_firstSuccess responses (fullUrl request_url) maxRetries
    maxRetries 1 k (by omega) h1 h2 h200 (fun a ha hb => hbefore a ha hb)
  have hk : k + 1 - 1 = k := by omega
  have hk2 : k - 1 = k - 1 := rfl
  rw [_fabric_api_request, h, hk]

/-- Witness for the first-success theorem: attempt 1 fails with 503,
attempt 2 answers 200, out of three allowed attempts. -/
theorem c5_first_success_stops_retrying_witness :
    1 ≤ 2 ∧
    _fabric_api_request
      (fun a => if a = 2 then ⟨200, "ok", Json.str "body"⟩
        else ⟨503, "busy", Json.null⟩) "workspaces/x" 3 =
      ⟨.ok (some (Json.str "body")), 2, 1⟩ :=
  ⟨by decide,
    c5_first_success_stops_retrying
      (fun a => if a = 2 then ⟨200, "ok", Json.str "body"⟩
        else ⟨503, "busy", Json.null⟩)
      "workspaces/x" 3 2 (by decide) (by decide) (by decide)
      (by
        intro a ha hb
        have haa : a = 1 := by omega
        subst haa
        decide)⟩

/-- C10: with `max_retries = 0` the loop body never runs — no request,
no sleep — and the trailing `return None` is reached; with any
`max_retries ≥ 1` the loop either returns a decoded 200 body or raises,
so the trailing `return None` is unreachable. -/
theorem c10_zero_retries_returns_none (responses : Nat → HttpResponse)
    (request_url : String) (maxRetries : Nat) (hpos : 1 ≤ maxRetries) :
    _fabric_api_request responses request_url 0 = ⟨.ok none, 0, 0⟩ ∧
    (_fabric_api_request responses request_url maxRetries).result ≠ .ok none := by
  constructor
  · rfl
  · exact apiAttempts_ne_okNone responses (fullUrl request_url) maxRetries
      maxRetries 1 (by omega) hpos

/-- Witness for the zero-retries theorem at `max_retries = 1`. -/
theorem c10_zero_retries_returns_none_witness :
    1 ≤ 1 ∧
    (_fabric_api_request (fun _ => ⟨200, "ok", Json.null⟩) "workspaces/x" 0 =
      ⟨.ok none, 0, 0⟩ ∧
    (_fabric_api_request (fun _ => ⟨200, "ok", Json.null⟩) "workspaces/x" 1).result ≠
      .ok none) :=
  ⟨by decide,
    c10_zero_retries_returns_none (fun _ => ⟨200, "ok", Json.null⟩)
      "workspaces/x" 1 (by decide)⟩

lemma waitFrom_continue (environment_id : String) (states : Nat → String)
    (ac : Bool) (ts lat i fuel : Nat)
    (hpub : _is_fabric_environment_published environment_id (states i) ac = .ok false)
    (ht : ¬((i + 1) * lat + i * 30 > ts)) :
    waitFrom environment_id states ac ts lat i (fuel + 1) =
      waitFrom environment_id states ac ts lat (i + 1) fuel := by
  simp only [waitFrom, hpub]
  rw [if_neg ht]

lemma waitFrom_true (environment_id : String) (states : Nat → String)
    (ac : Bool) (ts lat i fuel : Nat)
    (hpub : _is_fabric_environment_published environment_id (states i) ac = .ok true) :
    waitFrom environment_id states ac ts lat i (fuel + 1) =
      some ⟨.ok true, i + 1, i⟩ := by
  simp only [waitFrom, hpub]

lemma waitFrom_timeout (environment_id : String) (states : Nat → String)
    (ac : Bool) (ts lat i fuel : Nat)
    (hpub : _is_fabric_environment_published environment_id (states i) ac = .ok false)
    (ht : (i + 1) * lat + i * 30 > ts) :
    waitFrom environment_id states ac ts lat i (fuel + 1) =
      some ⟨.error (.timeoutError (waitTimeoutMsg environment_id)), i + 1, i⟩ := by
  simp only [waitFrom, hpub]
  rw [if_pos ht]

/-- The mocked state sequence `[Running, Running, Success]` of the C6
scenario. -/
def c6States : Nat → String := fun i => if i < 2 then "Running" else "Success"

/-- C6: the polling loop checks the state, then tests elapsed time
against the start reference captured once at entry.  With the state
sequence `[Running, Running, Success]` and the default 40-minute budget
it returns true after exactly 2 poll sleeps (3 polls); with the state
permanently `Running` and `timeoutMinutes = 0` it raises `TimeoutError`
at the first check after entry, before any poll sleep, because the
first poll alone already consumed positive time.  `lat` is the positive
time one poll takes; the bound `lat ≤ 1000` keeps three polls inside
the 40-minute budget. -/
theorem c6_wait_polls_and_times_out (lat : Nat) (h1 : 1 ≤ lat) (h2 : lat ≤ 1000) :
    _wait_until_fabric_environment_publish_finished "env1" c6States false 40 lat 100 =
      some ⟨.ok true, 3, 2⟩ ∧
    _wait_until_fabric_environment_publish_finished "env1" (fun _ => "Running")
        false 0 lat 1 =
      some ⟨.error (.timeoutError (waitTimeoutMsg "env1")), 1, 0⟩ := by
  constructor
  · have p0 : _is_fabric_environment_published "env1" (c6States 0) false = .ok false := rfl
    have p1 : _is_fabric_environment_published "env1" (c6States 1) false = .ok false := rfl
    have p2 : _is_fabric_environment_published "env1" (c6States 2) false = .ok true := rfl
    unfold _wait_until_fabric_environment_publish_finished
    rw [show (100 : Nat) = 99 + 1 from rfl,
      waitFrom_continue "env1" c6States false (40 * 60) lat 0 99 p0 (by omega)]
    rw [show (99 : Nat) = 98 + 1 from rfl,
      waitFrom_continue "env1" c6States false (40 * 60) lat 1 98 p1 (by omega)]
    rw [show (98 : Nat) = 97 + 1 from rfl,
      waitFrom_true "env1" c6States false (40 * 60) lat 2 97 p2]
  · have p0 : _is_fabric_environment_published "env1"
        ((fun _ => "Running") 0) false = .ok false := rfl
    unfold _wait_until_fabric_environment_publish_finished
    rw [show (1 : Nat) = 0 + 1 from rfl,
      waitFrom_timeout "env1" (fun _ => "Running") false (0 * 60) lat 0 0 p0 (by omega)]

/-- Witness for the polling theorem with a poll latency of one time
unit. -/
theorem c6_wait_polls_and_times_out_witness :
    1 ≤ 1 ∧ 1 ≤ 1000 ∧
    (_wait_until_fabric_environment_publish_finished "env1" c6States false 40 1 100 =
      some ⟨.ok true, 3, 2⟩ ∧
    _wait_until_fabric_environment_publish_finished "env1" (fun _ => "Running")
        false 0 1 1 =
      some ⟨.error (.timeoutError (waitTimeoutMsg "env1")), 1, 0⟩) :=
  ⟨by decide, by decide, c6_wait_polls_and_times_out 1 (by decide) (by decide)⟩

lemma deleteLoop_strings (workspace_id environment_id : String)
    (names : List String) :
    deleteLoop workspace_id environment_id (names.map Json.str) =
      (.ok (), names.map
        (_delete_fabric_environment_custom_library workspace_id environment_id)) := by
  induction names with
  | nil => rfl
  | cons n rest ih => simp only [List.map_cons, deleteLoop, ih]

/-- C7 counterexample: on the listing whose `customLibraries` member is
the number 42, the membership test `"wheelFiles" in
libraries["customLibraries"]` raises `TypeError` — the listing lacks the
`customLibraries.wheelFiles` path, yet the function raises instead of
being a no-op. -/
theorem c7_nonobject_custom_libraries_raises :
    _delete_fabric_environment_published_custom_libraries "w1" "e1"
      (.obj [("customLibraries", .num 42)]) = (.error .typeError, []) := rfl

/-- C7 amended: one delete call per `wheelFiles` entry in listing order,
each through the quoting delete URL; zero delete calls without raising
when the listing object lacks the `customLibraries` key, or when its
`customLibraries` member is an object lacking the `wheelFiles` key.  A
`customLibraries` member that is neither a dict, a list nor a string
makes the membership test raise `TypeError` instead (the
counterexample). -/
theorem c7_deletes_each_wheel_file_in_order (workspace_id environment_id : String)
    (f g : List (String × Json)) (names : List String)
    (h1 : objLookup f "customLibraries" = some (.obj g))
    (h2 : objLookup g "wheelFiles" = some (.arr (names.map Json.str)))
    (f2 : List (String × Json))
    (h3 : objLookup f2 "customLibraries" = none)
    (f3 g3 : List (String × Json))
    (h4 : objLookup f3 "customLibraries" = some (.obj g3))
    (h5 : objLookup g3 "wheelFiles" = none) :
    _delete_fabric_environment_published_custom_libraries workspace_id
        environment_id (.obj f) =
      (.ok (), names.map
        (_delete_fabric_environment_custom_library workspace_id environment_id)) ∧
    _delete_fabric_environment_published_custom_libraries workspace_id
        environment_id (.obj f2) = (.ok (), []) ∧
    _delete_fabric_environment_published_custom_libraries workspace_id
        environment_id (.obj f3) = (.ok (), []) := by
  refine ⟨?_, ?_, ?_⟩
  · simp only [_delete_fabric_environment_published_custom_libraries,
      pyContains, getItem, h1, h2, Option.isSome_some, pyIter, deleteLoop_strings]
  · simp only [_delete_fabric_environment_published_custom_libraries,
      pyContains, h3, Option.isSome_none]
  · simp only [_delete_fabric_environment_published_custom_libraries,
      pyContains, getItem, h4, h5, Option.isSome_some, Option.isSome_none]

/-- Witness for the delete-all theorem: the listing whose
`customLibraries.wheelFiles` holds `a` and `b` yields exactly the two
delete calls for `a` and `b` in order; an empty listing object and a
listing whose `customLibraries` object is empty yield no delete call and
no exception. -/
theorem c7_deletes_each_wheel_file_in_order_witness :
    _delete_fabric_environment_published_custom_libraries "w1" "e1"
      (.obj [("customLibraries", .obj [("wheelFiles", .arr [.str "a", .str "b"])])]) =
      (.ok (), [_delete_fabric_environment_custom_library "w1" "e1" "a",
        _delete_fabric_environment_custom_library "w1" "e1" "b"]) ∧
    _delete_fabric_environment_published_custom_libraries "w1" "e1"
      (.obj []) = (.ok (), []) ∧
    _delete_fabric_environment_published_custom_libraries "w1" "e1"
      (.obj [("customLibraries", .obj [])]) = (.ok (), []) :=
  c7_deletes_each_wheel_file_in_order "w1" "e1"
    [("customLibraries", .obj [("wheelFiles", .arr [.str "a", .str "b"])])]
    [("wheelFiles", .arr [.str "a", .str "b"])] ["a", "b"] rfl rfl
    [] rfl [("customLibraries", .obj [])] [] rfl rfl

/-- C8 counterexample: on the 200 body whose `properties` member is the
number 1, the subscript `environment_details["properties"]["publishDetails"]`
raises `TypeError`, which the `except KeyError` handler does not catch —
the path is absent, yet the result is an uncaught crash rather than the
malformed-response exception. -/
theorem c8_nonobject_properties_uncaught_type_error :
    _get_fabric_environment_state (.obj [("properties", .num 1)]) =
      .error .typeError ∧
    (Except.error .typeError : Except PyError Json) ≠
      .error (.malformedResponse (.obj [("properties", .num 1)])) := by
  constructor
  · rfl
  · intro h
    injection h with h2
    exact PyError.noConfusion h2

/-- C8 amended: the state read returns the value at
`properties.publishDetails.state` when every level is an object holding
the key; it raises the malformed-response exception when some level is
an object missing the key (a `KeyError`, caught); when an intermediate
value exists but is not an object, the uncaught `TypeError` escapes. -/
theorem c8_state_lookup_classification
    (f g h2l : List (String × Json)) (v : Json)
    (ha1 : objLookup f "properties" = some (.obj g))
    (ha2 : objLookup g "publishDetails" = some (.obj h2l))
    (ha3 : objLookup h2l "state" = some v)
    (fb : List (String × Json)) (hb : objLookup fb "properties" = none)
    (fc gc : List (String × Json))
    (hc1 : objLookup fc "properties" = some (.obj gc))
    (hc2 : objLookup gc "publishDetails" = none)
    (fd gd hd3 : List (String × Json))
    (hd1 : objLookup fd "properties" = some (.obj gd))
    (hd2 : objLookup gd "publishDetails" = some (.obj hd3))
    (hd4 : objLookup hd3 "state" = none)
    (fe : List (String × Json)) (p : Json)
    (he1 : objLookup fe "properties" = some p) (he2 : p.isObj = false) :
    _get_fabric_environment_state (.obj f) = .ok v ∧
    _get_fabric_environment_state (.obj fb) =
      .error (.malformedResponse (.obj fb)) ∧
    _get_fabric_environment_state (.obj fc) =
      .error (.malformedResponse (.obj fc)) ∧
    _get_fabric_environment_state (.obj fd) =
      .error (.malformedResponse (.obj fd)) ∧
    _get_fabric_environment_state (.obj fe) = .error .typeError := by
  refine ⟨?_, ?_, ?_, ?_, ?_⟩
  · simp only [_get_fabric_environment_state, getStateChain, getItem,
      ha1, ha2, ha3]
  · simp only [_get_fabric_environment_state, getStateChain, getItem, hb]
  · simp only [_get_fabric_environment_state, getStateChain, getItem,
      hc1, hc2]
  · simp only [_get_fabric_environment_state, getStateChain, getItem,
      hd1, hd2, hd4]
  · cases p with
    | obj fields => simp [Json.isObj] at he2
    | null => simp only [_get_fabric_environment_state, getStateChain, getItem, he1]
    | bool b => simp only [_get_fabric_environment_state, getStateChain, getItem, he1]
    | num n => simp only [_get_fabric_environment_state, getStateChain, getItem, he1]
    | str s => simp only [_get_fabric_environment_state, getStateChain, getItem, he1]
    | arr xs => simp only [_get_fabric_environment_state, getStateChain, getItem, he1]

/-- Witness for the state-lookup classification at concrete bodies of
all five shapes. -/
theorem c8_state_lookup_classification_witness :
    _get_fabric_environment_state
      (.obj [("properties", .obj [("publishDetails",
        .obj [("state", .str "Running")])])]) = .ok (.str "Running") ∧
    _get_fabric_environment_state (.obj []) =
      .error (.malformedResponse (.obj [])) ∧
    _get_fabric_environment_state (.obj [("properties", .obj [])]) =
      .error (.malformedResponse (.obj [("properties", .obj [])])) ∧
    _get_fabric_environment_state
      (.obj [("properties", .obj [("publishDetails", .obj [])])]) =
      .error (.malformedResponse
        (.obj [("properties", .obj [("publishDetails", .obj [])])])) ∧
    _get_fabric_environment_state (.obj [("properties", .str "x")]) =
      .error .typeError :=
  c8_state_lookup_classification
    [("properties", .obj [("publishDetails", .obj [("state", .str "Running")])])]
    [("publishDetails", .obj [("state", .str "Running")])]
    [("state", .str "Running")] (.str "Running") rfl rfl rfl
    [] rfl
    [("properties", .obj [])] [] rfl rfl
    [("properties", .obj [("publishDetails", .obj [])])]
    [("publishDetails", .obj [])] [] rfl rfl rfl
    [("properties", .str "x")] (.str "x") rfl rfl

/-- C9: when the artifact path is missing from the filesystem the upload
raises `FileNotFoundError` with no request issued — the open happens
before any network call — and when the path exists the one multipart
request issued carries the field named `file` with content type
`application/octet-stream` and the base name of the path as its
filename. -/
theorem c9_upload_opens_before_request (fs : List String)
    (workspace_id environment_id present missing : String) (responseBody : Json)
    (hin : present ∈ fs) (hout : missing ∉ fs) :
    _upload_fabric_environment_custom_library fs workspace_id environment_id
      missing responseBody = (.error (.fileNotFound missing), []) ∧
    (_upload_fabric_environment_custom_library fs workspace_id environment_id
      present responseBody).2 =
      [.uploadLibrary ⟨"file", pathName present, "application/octet-stream"⟩] := by
  constructor
  · unfold _upload_fabric_environment_custom_library
    rw [if_neg hout]
  · unfold _upload_fabric_environment_custom_library
    rw [if_pos hin]

/-- Witness for the upload theorem on a one-file filesystem. -/
theorem c9_upload_opens_before_request_witness :
    _upload_fabric_environment_custom_library ["dist/pkg-1.0.whl"] "w1" "e1"
      "missing.whl" (.obj []) = (.error (.fileNotFound "missing.whl"), []) ∧
    (_upload_fabric_environment_custom_library ["dist/pkg-1.0.whl"] "w1" "e1"
      "dist/pkg-1.0.whl" (.obj [])).2 =
      [.uploadLibrary ⟨"file", pathName "dist/pkg-1.0.whl",
        "application/octet-stream"⟩] :=
  c9_upload_opens_before_request ["dist/pkg-1.0.whl"] "w1" "e1"
    "dist/pkg-1.0.whl" "missing.whl" (.obj [])
    (by simp) (by simp)

example : pathName "dist/pkg-1.0.whl" = "pkg-1.0.whl" := by decide

/-- The remote environment of the C2 scenario: state `Running` at the
initial read, `Cancelled` on every poll after cancellation is requested,
`Success` on every poll after publish, a listing holding one wheel file,
and every call answered with HTTP 200. -/
def c2Remote : RemoteEnv :=
  ⟨"Running", fun _ => "Cancelled", fun _ => "Success",
    .obj [("customLibraries", .obj [("wheelFiles", .arr [.str "old.whl"])])],
    .obj []⟩

/-- C2: in the scenario of the claim — state starts `Running`, resolves
to `Cancelled` once cancellation is requested, every call answers 200 —
the run reads the state and issues the cancel, but the cancel-and-wait
(polling with `allowCancelled = true` and a poll latency of one time
unit) never sees the state check succeed, because the check returns
false on `Cancelled` even when allowed; the wait therefore polls until
the 40-minute budget is exceeded, 79 state polls and 78 sleeps after
the cancel, and the run raises `TimeoutError` — it never issues a
delete, an upload or a publish, and does not return without error. -/
theorem c2_running_then_cancelled_times_out :
    run_wheel_deployment_to_fabric "w1" "env1" c2Remote ["dist/pkg.whl"]
      "dist/pkg.whl" 1 100 =
      some ⟨.error (.timeoutError (waitTimeoutMsg "env1")),
        FabricCall.getState :: FabricCall.cancelPublish ::
          List.replicate 79 FabricCall.getState⟩ := by
  rfl




